import Mathlib

/-!
Verification of the rofi mode adapter (`src/rofi-window-i3/src/rofi.rs`).

The file shallowly embeds the adapter layer: the `RofiMode` trait, the
per-instance `ModeData` state (provider instance plus icon cache), the
dispatch-table record `CRofiMode`, and each dispatch-slot thunk
(`_init`, `_destroy`, `_get_display_value`, `_result`, `_token_match`,
`_get_icon`, `rofi_c_mode`).

Modelling conventions:
* Raw C pointers that may be null become `Option`; the null pointer is `none`.
* A thunk that panics (an `unwrap` failing) returns `none` at its outer
  `Option`, and the display-value thunk records the panic in a `panicked`
  field because the flags output parameter is written before the potential
  panic point.
* An out parameter (`*mut c_int state`) is threaded explicitly: the thunk
  takes the value the host stored there (`stateIn`) and the result carries
  the value left there after the call (`stateOut`).
* The `HashMap` icon cache is an association list whose lookup returns the
  most recently inserted binding for a key, matching `HashMap` lookups.
* External host functions (`rofi_icon_fetcher_query`, `rofi_icon_fetcher_get`)
  are parameters of the icon thunk; within one instance's lifetime they are
  treated as deterministic functions.
* `_get_icon` and `_destroy` additionally report instrumentation that is
  fully determined by the branch taken: how many times the provider's
  `icon_query` ran (0 or 1), and whether `_destroy` actually freed state.
-/

/-- Modelled from the spec: the host ABI version constant set on the
dispatch table comes from the generated bindings, which are not under
`src/`; its exact value is irrelevant to every claim. -/
def ABI_VERSION : Nat := 7

/-- Modelled from the spec: mode type tag values from the generated host
bindings (switcher/completer/dmenu/unset); the exact numerals are part of
the fixed external contract. -/
inductive ModeType where
  | Unset
  | Switcher
  | Completer
  | Dmenu
deriving DecidableEq

def ModeType.toNat : ModeType → Nat
  | .Unset => 0
  | .Switcher => 1
  | .Completer => 2
  | .Dmenu => 4

/-- Modelled from the spec: next-mode codes from the generated host
bindings (`ModeMode`); the exact numerals are part of the fixed external
contract and matter to no claim. -/
inductive ModeMode where
  | Exit
  | NextDialog
  | ReloadDialog
  | PreviousDialog
  | ResetDialog
deriving DecidableEq

def ModeMode.toNat : ModeMode → Nat
  | .Exit => 1000
  | .NextDialog => 1001
  | .ReloadDialog => 1002
  | .PreviousDialog => 1003
  | .ResetDialog => 1004

/-- Modelled from the spec: `MENU_OK` bit position from the host's fixed
binary contract (the generated bindings are not under `src/`). -/
def MenuReturn_MENU_OK : Nat := 0x00010000

/-- Modelled from the spec: `MENU_CANCEL` bit position. -/
def MenuReturn_MENU_CANCEL : Nat := 0x00020000

/-- Modelled from the spec: `MENU_NEXT` bit position. -/
def MenuReturn_MENU_NEXT : Nat := 0x00040000

/-- Modelled from the spec: `MENU_CUSTOM_INPUT` bit position. -/
def MenuReturn_MENU_CUSTOM_INPUT : Nat := 0x00080000

/-- Modelled from the spec: `MENU_ENTRY_DELETE` bit position. -/
def MenuReturn_MENU_ENTRY_DELETE : Nat := 0x00100000

/-- Modelled from the spec: `MENU_QUICK_SWITCH` bit position. -/
def MenuReturn_MENU_QUICK_SWITCH : Nat := 0x00200000

/-- Modelled from the spec: `MENU_CUSTOM_COMMAND` bit position. -/
def MenuReturn_MENU_CUSTOM_COMMAND : Nat := 0x00800000

/-- Modelled from the spec: `MENU_PREVIOUS` bit position. -/
def MenuReturn_MENU_PREVIOUS : Nat := 0x00400000

/-- Modelled from the spec: `MENU_COMPLETE` bit position. -/
def MenuReturn_MENU_COMPLETE : Nat := 0x01000000

/-- Modelled from the spec: `MENU_CUSTOM_ACTION` bit position. -/
def MenuReturn_MENU_CUSTOM_ACTION : Nat := 0x10000000

/-- Modelled from the spec: `MENU_LOWER_MASK`, the low 16 modifier bits the
adapter passes through when the provider declines to override. -/
def MenuReturn_MENU_LOWER_MASK : Nat := 0x0000FFFF

/-- The union of the ten flag constants declared in the Rust
`bitflags! MenuReturn` block (rofi.rs lines 30-44).  `MENU_LOWER_MASK` is
deliberately not among them: the Rust type declares only the ten named
flags. -/
def MenuReturn_all : Nat :=
  MenuReturn_MENU_OK |||
  MenuReturn_MENU_CANCEL |||
  MenuReturn_MENU_NEXT |||
  MenuReturn_MENU_CUSTOM_INPUT |||
  MenuReturn_MENU_ENTRY_DELETE |||
  MenuReturn_MENU_QUICK_SWITCH |||
  MenuReturn_MENU_CUSTOM_COMMAND |||
  MenuReturn_MENU_PREVIOUS |||
  MenuReturn_MENU_COMPLETE |||
  MenuReturn_MENU_CUSTOM_ACTION

/-- `bitflags`' `MenuReturn::from_bits`: succeeds exactly when truncating
the input to the declared flags changes nothing, returning the bits. -/
def MenuReturn.from_bits (bits : Nat) : Option Nat :=
  if bits &&& MenuReturn_all = bits then some bits else none

namespace EntryStateFlags

/-- `EntryStateFlags::Normal` (rofi.rs line 49). -/
def Normal : Nat := 0

/-- `EntryStateFlags::Urgent` (rofi.rs line 50). -/
def Urgent : Nat := 1

/-- `EntryStateFlags::Active` (rofi.rs line 51). -/
def Active : Nat := 2

/-- `EntryStateFlags::Selected` (rofi.rs line 52). -/
def Selected : Nat := 4

/-- `EntryStateFlags::Markup` (rofi.rs line 53). -/
def Markup : Nat := 8

/-- `EntryStateFlags::Alt` (rofi.rs line 54). -/
def Alt : Nat := 16

/-- `EntryStateFlags::Highlight` (rofi.rs line 55). -/
def Highlight : Nat := 32

/-- `EntryStateFlags::FmodMask` (rofi.rs line 56). -/
def FmodMask : Nat := 48

end EntryStateFlags

/-- An opaque host-owned matcher token (`rofi_int_matcher_t`); the adapter
never inspects it, so its identity is all that matters. -/
abbrev Pattern := Nat

/-- The `&self` operations of the `RofiMode` trait (rofi.rs lines 125-130):
the behaviour of one constructed provider instance.  Flags and the decoded
`MenuReturn` argument are carried as their raw `u32` bit values. -/
structure ModeInstance where
  get_num_entries : Nat
  get_display_value : Nat → Option (String × Nat)
  result : Nat → Nat → Option ModeMode
  token_match : List Pattern → Nat → Bool
  icon_query : Nat → Option String

/-- The class-level part of the `RofiMode` trait (rofi.rs lines 118-124):
associated constants plus the static `init`, whose outcome (`Ok self` or
`Err ()`) is the `Option` of the instance it would construct. -/
structure RofiMode where
  NAME : String
  DISPLAY_NAME : String
  NAME_KEY : String
  TYPE : ModeType

/-- Icon-cache key (rofi.rs lines 133-138); `scale` is always 1 at the
only construction site. -/
structure IconCacheEntry where
  line : Nat
  height : Nat
  scale : Nat
deriving DecidableEq

/-- `type IconCache = HashMap<IconCacheEntry, c_uint>` as an association
list; lookups return the most recent insertion for a key. -/
abbrev IconCache := List (IconCacheEntry × Nat)

/-- `HashMap::get` on the association-list model. -/
def icLookup : IconCache → IconCacheEntry → Option Nat
  | [], _ => none
  | (k, v) :: rest, e => if k = e then some v else icLookup rest e

/-- Per-instance state block (rofi.rs lines 142-145): the provider
instance and its icon cache. -/
structure ModeData where
  mode : ModeInstance
  icon_cache : IconCache

/-- `ModeData::init` (rofi.rs lines 148-152): runs the provider's static
`init` (its outcome supplied as `initResult`) and pairs the instance with
an empty icon cache. -/
def ModeData.init (initResult : Option ModeInstance) : Option ModeData :=
  initResult.map fun m => { mode := m, icon_cache := [] }

/-- The host's dispatch-table record `rofi_mode` restricted to the fields
the claims mention.  `display_name` and `private_data` are nullable raw
pointers, hence `Option`. -/
structure CRofiMode where
  abi_version : Nat
  name : String
  cfg_name_key : String
  display_name : Option String
  type_ : Nat
  private_data : Option ModeData

/-- `rofi_c_mode::<T>()` (rofi.rs lines 283-301): zero the record, then set
ABI version, name, configuration key and type tag.  `display_name` and
`private_data` stay at their zeroed (null) values. -/
def rofi_c_mode (c : RofiMode) : CRofiMode :=
  { abi_version := ABI_VERSION
  , name := c.NAME
  , cfg_name_key := c.NAME_KEY
  , display_name := none
  , type_ := c.TYPE.toNat
  , private_data := none }

/-- `_init::<T>` (rofi.rs lines 161-173): unconditionally writes the
display name, then attempts `ModeData::init` (whose outcome is supplied as
`initResult`); on success the boxed state is stored in `private_data` and
1 is returned, on failure nothing further is stored and 0 is returned. -/
def _init (c : RofiMode) (initResult : Option ModeInstance)
    (mc : CRofiMode) : CRofiMode × Nat :=
  let mc1 := { mc with display_name := some c.DISPLAY_NAME }
  match ModeData.init initResult with
  | none => (mc1, 0)
  | some d => ({ mc1 with private_data := some d }, 1)

/-- `_destroy::<T>` (rofi.rs lines 175-183): a null state pointer returns
immediately; otherwise the state is dropped and deallocated (reported by
the `Bool`) and the pointer is cleared to null. -/
def _destroy (mc : CRofiMode) : CRofiMode × Bool :=
  match mc.private_data with
  | none => (mc, false)
  | some _ => ({ mc with private_data := none }, true)

/-- `CString::new`: fails (and the caller's `unwrap` panics) exactly when
the string holds an interior NUL byte. -/
def CString.new (s : String) : Option String :=
  if s.data.contains (Char.ofNat 0) then none else some s

/-- Outcome of one `_get_display_value` call: the returned C string (null
= `none`), the value left in the `*mut c_int state` out parameter, and
whether the `CString::new(..).unwrap()` panicked (the flags write happens
before that panic point). -/
structure DisplayValueResult where
  text : Option String
  stateOut : Nat
  panicked : Bool
deriving DecidableEq

/-- `_get_display_value::<T>` (rofi.rs lines 190-210).  `stateIn` is the
value the host left in the `state` out parameter; `get_entry` is the
"need text" flag (`c_int`, modelled as its truth value). -/
def _get_display_value (md : ModeData) (line : Nat) (stateIn : Nat)
    (get_entry : Bool) : DisplayValueResult :=
  match md.mode.get_display_value line with
  | some (dv, flags) =>
    if get_entry = false then
      { text := none, stateOut := flags, panicked := false }
    else
      match CString.new dv with
      | some s => { text := some s, stateOut := flags, panicked := false }
      | none => { text := none, stateOut := flags, panicked := true }
  | none => { text := none, stateOut := stateIn, panicked := false }

/-- `_result::<T>` (rofi.rs lines 212-229).  The outer `none` models the
panic of `MenuReturn::from_bits(mretv).unwrap()` on undecodable bits,
which happens before the provider is consulted. -/
def _result (md : ModeData) (mretv : Nat) (line : Nat) : Option Nat :=
  match MenuReturn.from_bits mretv with
  | none => none
  | some b =>
    match md.mode.result b line with
    | some e => some e.toNat
    | none => some (mretv &&& MenuReturn_MENU_LOWER_MASK)

/-- The pointer walk of `_token_match` (rofi.rs lines 236-241): the host
array is the finite run of memory cells starting at `tokens`; a cell is
`none` when it holds the null terminator.  Result `none` models the walk
running off the end of the supplied memory without meeting a terminator;
`some l` is normal termination with the collected patterns. -/
def collectTokens : List (Option Pattern) → Option (List Pattern)
  | [] => none
  | none :: _ => some []
  | some p :: rest => (collectTokens rest).map (p :: ·)

/-- `_token_match::<T>` (rofi.rs lines 231-245): collect the patterns up to
the first null, delegate to the provider, return the boolean as `c_int`. -/
def _token_match (md : ModeData) (tokens : List (Option Pattern))
    (line : Nat) : Option Nat :=
  (collectTokens tokens).map fun tv =>
    if md.mode.token_match tv line then 1 else 0

/-- Outcome of one `_get_icon` call: the returned surface pointer (null =
`none`), the icon cache afterwards, and how many times the provider's
`icon_query` ran during the call (0 or 1, determined by the branch). -/
structure GetIconResult where
  icon : Option Nat
  cache : IconCache
  queries : Nat
deriving DecidableEq

/-- `_get_icon::<T>` (rofi.rs lines 247-281).  `fetchQuery` and `fetchGet`
stand for the external `rofi_icon_fetcher_query` / `rofi_icon_fetcher_get`;
`scale` is fixed at 1 as at the Rust construction site. -/
def _get_icon (fetchQuery : String → Nat → Nat) (fetchGet : Nat → Nat)
    (md : ModeData) (line height : Nat) : GetIconResult :=
  let entry : IconCacheEntry := { line := line, height := height, scale := 1 }
  match icLookup md.icon_cache entry with
  | some uid =>
    { icon := some (fetchGet uid), cache := md.icon_cache, queries := 0 }
  | none =>
    match md.mode.icon_query line with
    | some q =>
      let uid := fetchQuery q height
      { icon := some (fetchGet uid)
      , cache := (entry, uid) :: md.icon_cache
      , queries := 1 }
    | none =>
      { icon := none, cache := md.icon_cache, queries := 1 }

/-! ### Concrete fixtures used by witnesses and counterexamples -/

/-- A provider instance with no entries: every lookup answers "nothing". -/
def emptyMode : ModeInstance :=
  { get_num_entries := 0
  , get_display_value := fun _ => none
  , result := fun _ _ => none
  , token_match := fun _ _ => false
  , icon_query := fun _ => none }

/-- A provider instance with three entries, an icon on entry 0, and no
result overrides. -/
def sampleMode : ModeInstance :=
  { get_num_entries := 3
  , get_display_value := fun i =>
      if i < 3 then some ("first entry", EntryStateFlags.Normal) else none
  , result := fun _ _ => none
  , token_match := fun ps _ => ps.length = 2
  , icon_query := fun i => if i = 0 then some "firefox" else none }

/-- Class-level constants shared by the fixtures. -/
def sampleClass : RofiMode :=
  { NAME := "i3"
  , DISPLAY_NAME := "window"
  , NAME_KEY := "display-i3"
  , TYPE := ModeType.Switcher }

/-- The freshly constructed dispatch table for `sampleClass`. -/
def mc0 : CRofiMode := rofi_c_mode sampleClass

/-- A dispatch table after a successful init of `sampleMode`. -/
def mcLive : CRofiMode :=
  { mc0 with private_data := some { mode := sampleMode, icon_cache := [] } }

/-! ### C1: destroy is a safe no-op on null state and clears the pointer -/

/-- C1: calling `_destroy` twice in a row, or once without a preceding
successful init, is a safe no-op: with a null state pointer the thunk does
nothing (frees nothing, changes nothing), and after a non-null destroy the
pointer is cleared to null, so the immediate repeat call frees nothing. -/
theorem destroy_double_safe (mc : CRofiMode) :
    ((_destroy mc).1.private_data = none) ∧
    (_destroy (_destroy mc).1 = ((_destroy mc).1, false)) ∧
    (mc.private_data = none → _destroy mc = (mc, false)) := by
  cases h : mc.private_data <;> simp [_destroy, h]

/-- C1 witness: double destroy on a live table, and destroy on the freshly
constructed (never-inited) table. -/
theorem destroy_double_safe_witness :
    ((_destroy mcLive).1.private_data = none) ∧
    (_destroy (_destroy mcLive).1 = ((_destroy mcLive).1, false)) ∧
    (_destroy mc0 = (mc0, false)) :=
  ⟨(destroy_double_safe mcLive).1, (destroy_double_safe mcLive).2.1,
   (destroy_double_safe mc0).2.2 rfl⟩

/-! ### C8: init stores state only on success and reports the outcome -/

/-- C8: when the provider's `init` fails the thunk stores no state
pointer (the field keeps its value, so a null pointer stays null) and
returns 0; on success it stores the fresh `ModeData` as the opaque state
pointer and returns 1.  In both cases the display name is written. -/
theorem init_thunk_spec (c : RofiMode) (ir : Option ModeInstance)
    (mc : CRofiMode) :
    (ir = none → _init c ir mc =
      ({ mc with display_name := some c.DISPLAY_NAME }, 0)) ∧
    (∀ m, ir = some m → _init c ir mc =
      ({ mc with display_name := some c.DISPLAY_NAME,
                 private_data := some { mode := m, icon_cache := [] } }, 1)) := by
  cases ir <;> simp [_init, ModeData.init]

/-- C8 witness: a failing and a succeeding init on the freshly
constructed table. -/
theorem init_thunk_spec_witness :
    (_init sampleClass none mc0 =
      ({ mc0 with display_name := some sampleClass.DISPLAY_NAME }, 0)) ∧
    (_init sampleClass (some sampleMode) mc0 =
      ({ mc0 with display_name := some sampleClass.DISPLAY_NAME,
                  private_data := some { mode := sampleMode, icon_cache := [] } },
        1)) :=
  ⟨(init_thunk_spec sampleClass none mc0).1 rfl,
   (init_thunk_spec sampleClass (some sampleMode) mc0).2 sampleMode rfl⟩

/-! ### C9: which dispatch-table fields each thunk may write -/

/-- C9 counterexample: the display name is not written at construction —
`rofi_c_mode` leaves it null and the `_init` thunk writes it afterwards,
so a dispatch-table field other than the state pointer is mutated by a
thunk after construction. -/
theorem identity_fields_cex :
    (_init sampleClass (some sampleMode)
        (rofi_c_mode sampleClass)).1.display_name ≠
      (rofi_c_mode sampleClass).display_name := by
  simp [_init, ModeData.init, rofi_c_mode]

/-- C9 (amended): name, configuration key, ABI version and mode type tag
are written once at construction and preserved by the state-mutating
thunks; construction leaves the display name and state pointer null; the
`_init` thunk writes the display name (its only non-state-pointer write),
and `_destroy` writes nothing but the state pointer. -/
theorem dispatch_table_field_discipline (c : RofiMode)
    (ir : Option ModeInstance) (mc : CRofiMode) :
    ((rofi_c_mode c).abi_version = ABI_VERSION ∧
     (rofi_c_mode c).name = c.NAME ∧
     (rofi_c_mode c).cfg_name_key = c.NAME_KEY ∧
     (rofi_c_mode c).type_ = c.TYPE.toNat ∧
     (rofi_c_mode c).display_name = none ∧
     (rofi_c_mode c).private_data = none) ∧
    ((_init c ir mc).1.name = mc.name ∧
     (_init c ir mc).1.cfg_name_key = mc.cfg_name_key ∧
     (_init c ir mc).1.abi_version = mc.abi_version ∧
     (_init c ir mc).1.type_ = mc.type_ ∧
     (_init c ir mc).1.display_name = some c.DISPLAY_NAME) ∧
    ((_destroy mc).1.name = mc.name ∧
     (_destroy mc).1.cfg_name_key = mc.cfg_name_key ∧
     (_destroy mc).1.abi_version = mc.abi_version ∧
     (_destroy mc).1.type_ = mc.type_ ∧
     (_destroy mc).1.display_name = mc.display_name) := by
  cases ir <;> cases h : mc.private_data <;>
    simp [rofi_c_mode, _init, _destroy, ModeData.init, h]

/-! ### C5/C6: the display-value thunk -/

/-- C5: for an index at which the provider returns a display value, the
"no text needed" call returns a null string, does not panic, and leaves
in the flags output parameter exactly the value the "text needed" call
leaves there — regardless of what the host had stored in that parameter
before either call. -/
theorem display_value_flags_only (md : ModeData)
    (line stateIn stateIn' : Nat) (dv : String) (flags : Nat)
    (h : md.mode.get_display_value line = some (dv, flags)) :
    (_get_display_value md line stateIn false).text = none ∧
    (_get_display_value md line stateIn false).panicked = false ∧
    (_get_display_value md line stateIn false).stateOut =
      (_get_display_value md line stateIn' true).stateOut := by
  cases hc : CString.new dv <;> simp [_get_display_value, h, hc]

/-- C5 witness: entry 0 of the three-entry fixture, probed with distinct
host-initialised flag words. -/
theorem display_value_flags_only_witness :
    (_get_display_value { mode := sampleMode, icon_cache := [] }
        0 5 false).text = none ∧
    (_get_display_value { mode := sampleMode, icon_cache := [] }
        0 5 false).panicked = false ∧
    (_get_display_value { mode := sampleMode, icon_cache := [] }
        0 5 false).stateOut =
      (_get_display_value { mode := sampleMode, icon_cache := [] }
        0 9 true).stateOut :=
  display_value_flags_only { mode := sampleMode, icon_cache := [] }
    0 5 9 "first entry" EntryStateFlags.Normal rfl

/-- C6 counterexample: for an out-of-range index the thunk does not write
the flags output parameter at all, so the parameter keeps the value the
host stored there (here 5) instead of holding the default `Normal`
flags. -/
theorem display_value_oob_cex :
    (_get_display_value { mode := emptyMode, icon_cache := [] }
        5 5 true).stateOut ≠ EntryStateFlags.Normal := by
  simp [_get_display_value, emptyMode, EntryStateFlags.Normal]

/-- C6 (amended): for an index at which the provider returns no display
value, the thunk returns a null string, does not panic, and writes
nothing to the flags output parameter, which therefore keeps the value
the host supplied. -/
theorem display_value_oob (md : ModeData) (line stateIn : Nat) (ge : Bool)
    (h : md.mode.get_display_value line = none) :
    _get_display_value md line stateIn ge =
      { text := none, stateOut := stateIn, panicked := false } := by
  simp [_get_display_value, h]

/-- C6 witness: index 5 on the empty provider. -/
theorem display_value_oob_witness :
    _get_display_value { mode := emptyMode, icon_cache := [] } 5 7 true =
      { text := none, stateOut := 7, panicked := false } :=
  display_value_oob { mode := emptyMode, icon_cache := [] } 5 7 true rfl

/-! ### C7: the token-match pointer walk -/

/-- Walking memory that holds the patterns `pre`, then the null
terminator, then arbitrary junk, terminates at the terminator and
collects exactly `pre`. -/
theorem collectTokens_terminated (pre : List Pattern)
    (junk : List (Option Pattern)) :
    collectTokens (pre.map some ++ none :: junk) = some pre := by
  induction pre with
  | nil => rfl
  | cons p rest ih => simp [collectTokens, ih]

/-- C7: on any null-terminated pattern array the token-match thunk
terminates, never letting anything stored past the first null influence
the outcome, and delegates exactly the full sequence of patterns that
precede the null to the provider, returning its boolean as 1 or 0. -/
theorem token_match_delegates (md : ModeData) (pre : List Pattern)
    (junk : List (Option Pattern)) (line : Nat) :
    collectTokens (pre.map some ++ none :: junk) = some pre ∧
    _token_match md (pre.map some ++ none :: junk) line =
      some (if md.mode.token_match pre line then 1 else 0) := by
  refine ⟨collectTokens_terminated pre junk, ?_⟩
  simp [_token_match, collectTokens_terminated]

/-! ### C2/C3: the icon cache -/

/-- Deterministic stand-in for `rofi_icon_fetcher_query` in witnesses. -/
def fq0 : String → Nat → Nat := fun _ h => h + 100

/-- Deterministic stand-in for `rofi_icon_fetcher_get` in witnesses. -/
def fg0 : Nat → Nat := fun u => u * 2

/-- C2: after one call that resolves and caches a handle for an uncached
(index, height) key, a second call with the identical key answers from
the cache: it returns the identical handle, runs the provider's
`icon_query` zero further times (so exactly once across both calls), and
leaves the cache unchanged. -/
theorem get_icon_cache_hit (fq : String → Nat → Nat) (fg : Nat → Nat)
    (md : ModeData) (line height : Nat) (q : String)
    (h1 : icLookup md.icon_cache
      { line := line, height := height, scale := 1 } = none)
    (h2 : md.mode.icon_query line = some q) :
    (_get_icon fq fg md line height).queries = 1 ∧
    (_get_icon fq fg
      { mode := md.mode, icon_cache := (_get_icon fq fg md line height).cache }
      line height).icon = (_get_icon fq fg md line height).icon ∧
    (_get_icon fq fg
      { mode := md.mode, icon_cache := (_get_icon fq fg md line height).cache }
      line height).cache = (_get_icon fq fg md line height).cache ∧
    (_get_icon fq fg
      { mode := md.mode, icon_cache := (_get_icon fq fg md line height).cache }
      line height).queries = 0 := by
  simp [_get_icon, h1, h2, icLookup]

/-- C2 witness: entry 0 of the three-entry fixture at height 24, starting
from the empty cache. -/
theorem get_icon_cache_hit_witness :
    (_get_icon fq0 fg0 { mode := sampleMode, icon_cache := [] }
      0 24).queries = 1 ∧
    (_get_icon fq0 fg0
      { mode := sampleMode
      , icon_cache :=
          (_get_icon fq0 fg0 { mode := sampleMode, icon_cache := [] }
            0 24).cache }
      0 24).icon =
      (_get_icon fq0 fg0 { mode := sampleMode, icon_cache := [] }
        0 24).icon ∧
    (_get_icon fq0 fg0
      { mode := sampleMode
      , icon_cache :=
          (_get_icon fq0 fg0 { mode := sampleMode, icon_cache := [] }
            0 24).cache }
      0 24).cache =
      (_get_icon fq0 fg0 { mode := sampleMode, icon_cache := [] }
        0 24).cache ∧
    (_get_icon fq0 fg0
      { mode := sampleMode
      , icon_cache :=
          (_get_icon fq0 fg0 { mode := sampleMode, icon_cache := [] }
            0 24).cache }
      0 24).queries = 0 :=
  get_icon_cache_hit fq0 fg0 { mode := sampleMode, icon_cache := [] }
    0 24 "firefox" rfl rfl

/-- C3: when the key is uncached and the provider's `icon_query` answers
nothing, the thunk returns the null surface, inserts no cache entry, and
a repeat call with the same key runs `icon_query` again. -/
theorem get_icon_no_query_no_insert (fq : String → Nat → Nat)
    (fg : Nat → Nat) (md : ModeData) (line height : Nat)
    (h1 : icLookup md.icon_cache
      { line := line, height := height, scale := 1 } = none)
    (h2 : md.mode.icon_query line = none) :
    (_get_icon fq fg md line height).icon = none ∧
    (_get_icon fq fg md line height).cache = md.icon_cache ∧
    (_get_icon fq fg md line height).queries = 1 ∧
    (_get_icon fq fg
      { mode := md.mode, icon_cache := (_get_icon fq fg md line height).cache }
      line height).queries = 1 := by
  simp [_get_icon, h1, h2]

/-- C3 witness: entry 1 of the three-entry fixture (no icon there),
starting from the empty cache. -/
theorem get_icon_no_query_no_insert_witness :
    (_get_icon fq0 fg0 { mode := sampleMode, icon_cache := [] }
      1 24).icon = none ∧
    (_get_icon fq0 fg0 { mode := sampleMode, icon_cache := [] }
      1 24).cache = [] ∧
    (_get_icon fq0 fg0 { mode := sampleMode, icon_cache := [] }
      1 24).queries = 1 ∧
    (_get_icon fq0 fg0
      { mode := sampleMode
      , icon_cache :=
          (_get_icon fq0 fg0 { mode := sampleMode, icon_cache := [] }
            1 24).cache }
      1 24).queries = 1 :=
  get_icon_no_query_no_insert fq0 fg0 { mode := sampleMode, icon_cache := [] }
    1 24 rfl rfl

/-! ### C4/C10: the result thunk -/

/-- Masking with `a` fixes `m` exactly when every set bit of `m` is a set
bit of `a`. -/
theorem land_eq_self_iff (m a : Nat) :
    m &&& a = m ↔ ∀ i, m.testBit i = true → a.testBit i = true := by
  constructor
  · intro h i hm
    have hbit := congrArg (fun x => Nat.testBit x i) h
    simpa [Nat.testBit_land, hm] using hbit
  · intro h
    apply Nat.eq_of_testBit_eq
    intro i
    rw [Nat.testBit_land]
    cases hm : m.testBit i with
    | false => simp
    | true => simp [h i hm]

/-- C10: the result thunk's unchecked decode makes it complete (return a
next-mode code) exactly when every set bit of the raw action bitmask is a
bit of one of the ten declared `MenuReturn` flags; otherwise the
`unwrap` panics before the provider or the pass-through is reached. -/
theorem result_decode_total (md : ModeData) (mretv line : Nat) :
    (_result md mretv line).isSome = true ↔
      ∀ i, mretv.testBit i = true → MenuReturn_all.testBit i = true := by
  have key : (_result md mretv line).isSome = true ↔
      mretv &&& MenuReturn_all = mretv := by
    unfold _result MenuReturn.from_bits
    by_cases h : mretv &&& MenuReturn_all = mretv
    · cases hr : md.mode.result mretv line <;> simp [h, hr]
    · simp [h]
  rw [key, land_eq_self_iff]

/-- C4 counterexample: on the raw bitmask 1 (a modifier bit, which is not
among the ten declared flags) the provider declines to override, yet the
thunk panics in the decode instead of returning the input's lower bits. -/
theorem result_passthrough_cex :
    emptyMode.result 1 0 = none ∧
    _result { mode := emptyMode, icon_cache := [] } 1 0 ≠
      some (1 &&& MenuReturn_MENU_LOWER_MASK) := by
  exact ⟨rfl, by decide⟩

/-- C4 (amended): for every raw action bitmask that decodes (all its set
bits lie among the ten declared flags), if the provider returns no
override the thunk returns the input masked with `MENU_LOWER_MASK`, i.e.
a value whose low-order bits equal the input's low-order bits. -/
theorem result_passthrough (md : ModeData) (mretv line : Nat)
    (hdec : mretv &&& MenuReturn_all = mretv)
    (hnone : md.mode.result mretv line = none) :
    _result md mretv line = some (mretv &&& MenuReturn_MENU_LOWER_MASK) := by
  simp [_result, MenuReturn.from_bits, hdec, hnone]

/-- C4 witness: the quick-switch action on the empty provider. -/
theorem result_passthrough_witness :
    _result { mode := emptyMode, icon_cache := [] }
      MenuReturn_MENU_QUICK_SWITCH 0 =
      some (MenuReturn_MENU_QUICK_SWITCH &&& MenuReturn_MENU_LOWER_MASK) :=
  result_passthrough { mode := emptyMode, icon_cache := [] }
    MenuReturn_MENU_QUICK_SWITCH 0 (by decide) rfl
